import Mathlib

/-!
Shallow embedding of the Go package `response` (file `response.go`), a
gin-based HTTP response-envelope builder, together with theorems checking
the natural-language specification against it.

Modelling conventions:
- Go `interface{}` payloads are modelled by the JSON value type `Json`;
  the Go `nil` interface is `Json.null` (the `omitempty` tag omits it).
- The gin context is modelled by its two observable capabilities used by
  this package: the ambient key/value store (`c.Get`) and the inbound
  request headers (`c.GetHeader`, which returns the empty string when the
  header is absent).
- Values stored in the ambient context are type-erased in Go; `GoVal`
  records only whether the value is a string (the one distinction the
  code observes through its type assertion `requestID.(string)`).
- A Go runtime panic (failed type assertion in `getRequestID`, integer
  division by zero in `NewPageResponse`) is modelled by `none` of an
  `Option` result: no value is produced and nothing is emitted.
- `time.Now().Unix()` is modelled by an explicit clock argument `now`.
- Go `int64` (and `int`, which is 64-bit here) arithmetic wraps; `wrap64`
  reduces an exact integer to the represented `int64` value. Go integer
  division truncates toward zero (`Int.tdiv`); the Go special case
  `minInt64 / -1 = minInt64` is recovered by the outer `wrap64`.
- `c.JSON(status, body)` is modelled by returning an `Emitted` record
  holding the transport status and the body.
-/

/-- JSON values: the model of type-erased Go payloads and of the wire
format produced by `encoding/json`. Object fields are an ordered
association list, matching serialization order. -/
inductive Json where
  | null : Json
  | bool (b : Bool) : Json
  | num (n : Int) : Json
  | str (s : String) : Json
  | arr (xs : List Json) : Json
  | obj (fields : List (String × Json)) : Json

/-- A type-erased value stored in the ambient gin context: either a Go
string or some non-string value (only string-ness is observable here). -/
inductive GoVal where
  | str (s : String) : GoVal
  | nonStr (tag : Nat) : GoVal
deriving DecidableEq, Repr

/-- The gin context as seen by this package: the ambient per-request
key/value store (`c.Get`) and the inbound header lookup (`c.GetHeader`,
empty string when the header is absent). -/
structure GinCtx where
  keys : String → Option GoVal
  header : String → String

/-- Go struct `ErrorInfo`: `Code string`, `Message string`,
`Details interface{} json:details,omitempty`. -/
structure ErrorInfo where
  Code : String
  Message : String
  Details : Json

/-- Go struct `Response`: the envelope. `Data interface{} omitempty`,
`Error *ErrorInfo omitempty` (a nil pointer is `none`),
`RequestID string omitempty`. -/
structure Response where
  Code : Int
  Message : String
  Data : Json
  Error : Option ErrorInfo
  Timestamp : Int
  RequestID : String

/-- Go struct `PageResponse`. -/
structure PageResponse where
  List : Json
  Total : Int
  Page : Int
  PageSize : Int
  TotalPages : Int

/-- The observable effect of `c.JSON(status, body)`: transport status and
response body. -/
structure Emitted where
  status : Int
  body : Response

/-- Reduce an exact integer to the `int64` value that represents it
(two's-complement wraparound). -/
def wrap64 (x : Int) : Int := (x + 2 ^ 63) % 2 ^ 64 - 2 ^ 63

/-- Go function `getRequestID`: ambient key `request_id` first (with an
unchecked type assertion to `string`, which panics on a non-string value,
modelled by `none`), else header `X-Request-ID` (empty when absent). -/
def getRequestID (c : GinCtx) : Option String :=
  match c.keys "request_id" with
  | some (GoVal.str s) => some s
  | some (GoVal.nonStr _) => none
  | none => some (c.header "X-Request-ID")

/-- Go function `Success`: `c.JSON(200, &Response{Code: 200, Message:
"success", Data: data, Timestamp: now, RequestID: getRequestID(c)})`. -/
def Success (c : GinCtx) (data : Json) (now : Int) : Option Emitted :=
  (getRequestID c).map fun rid =>
    { status := 200
      body := { Code := 200, Message := "success", Data := data,
                Error := none, Timestamp := now, RequestID := rid } }

/-- Go function `SuccessWithMessage`. -/
def SuccessWithMessage (c : GinCtx) (message : String) (data : Json)
    (now : Int) : Option Emitted :=
  (getRequestID c).map fun rid =>
    { status := 200
      body := { Code := 200, Message := message, Data := data,
                Error := none, Timestamp := now, RequestID := rid } }

/-- Serialization of `PageResponse` by `encoding/json` (no omitempty
tags, field order as declared). -/
def PageResponse.toJson (p : PageResponse) : Json :=
  Json.obj [("list", p.List), ("total", Json.num p.Total),
            ("page", Json.num p.Page), ("page_size", Json.num p.PageSize),
            ("total_pages", Json.num p.TotalPages)]

/-- Go function `SuccessWithPage`: the page payload becomes the `Data`
field (its wire form). -/
def SuccessWithPage (c : GinCtx) (message : String) (page : PageResponse)
    (now : Int) : Option Emitted :=
  (getRequestID c).map fun rid =>
    { status := 200
      body := { Code := 200, Message := message, Data := page.toJson,
                Error := none, Timestamp := now, RequestID := rid } }

/-- Go function `Error`: `c.JSON(httpCode, &Response{Code: code, Message:
"error", Error: &ErrorInfo{Code: errorCode, Message: message}, ...})`. -/
def Error (c : GinCtx) (httpCode code : Int) (errorCode message : String)
    (now : Int) : Option Emitted :=
  (getRequestID c).map fun rid =>
    { status := httpCode
      body := { Code := code, Message := "error", Data := Json.null,
                Error := some { Code := errorCode, Message := message,
                                Details := Json.null },
                Timestamp := now, RequestID := rid } }

/-- Go function `ErrorWithDetails`: as `Error`, with `Details` set. -/
def ErrorWithDetails (c : GinCtx) (httpCode code : Int)
    (errorCode message : String) (details : Json) (now : Int) :
    Option Emitted :=
  (getRequestID c).map fun rid =>
    { status := httpCode
      body := { Code := code, Message := "error", Data := Json.null,
                Error := some { Code := errorCode, Message := message,
                                Details := details },
                Timestamp := now, RequestID := rid } }

/-- Go function `BadRequest`: `Error(c, 400, 400, "INVALID_PARAM", message)`. -/
def BadRequest (c : GinCtx) (message : String) (now : Int) : Option Emitted :=
  Error c 400 400 "INVALID_PARAM" message now

/-- Go function `BadRequestWithDetails`. -/
def BadRequestWithDetails (c : GinCtx) (message : String) (details : Json)
    (now : Int) : Option Emitted :=
  ErrorWithDetails c 400 400 "INVALID_PARAM" message details now

/-- Go function `Unauthorized`: `Error(c, 401, 401, "INVALID_TOKEN", message)`. -/
def Unauthorized (c : GinCtx) (message : String) (now : Int) : Option Emitted :=
  Error c 401 401 "INVALID_TOKEN" message now

/-- Go function `Forbidden`: `Error(c, 403, 403, "INSUFFICIENT_PERMISSION", message)`. -/
def Forbidden (c : GinCtx) (message : String) (now : Int) : Option Emitted :=
  Error c 403 403 "INSUFFICIENT_PERMISSION" message now

/-- Go function `NotFound`: `Error(c, 404, 404, "USER_NOT_FOUND", message)`. -/
def NotFound (c : GinCtx) (message : String) (now : Int) : Option Emitted :=
  Error c 404 404 "USER_NOT_FOUND" message now

/-- Go function `InternalError`: `Error(c, 500, 500, "INTERNAL_ERROR", message)`. -/
def InternalError (c : GinCtx) (message : String) (now : Int) : Option Emitted :=
  Error c 500 500 "INTERNAL_ERROR" message now

/-- Go function `BusinessError`: `Error(c, 400, 400, errorCode, message)`. -/
def BusinessError (c : GinCtx) (errorCode message : String) (now : Int) :
    Option Emitted :=
  Error c 400 400 errorCode message now

/-- Go function `NewPageResponse`: `totalPages := int((total +
int64(pageSize) - 1) / int64(pageSize))` in wrapping `int64` arithmetic
with truncating division; division by zero (`pageSize = 0`) is a runtime
panic, modelled by `none`. -/
def NewPageResponse (list : Json) (total page pageSize : Int) :
    Option PageResponse :=
  if pageSize = 0 then none
  else
    some { List := list, Total := total, Page := page, PageSize := pageSize,
           TotalPages :=
             wrap64 (Int.tdiv (wrap64 (total + pageSize - 1)) pageSize) }

/-- Whether a JSON value is `null` (a Go nil interface). -/
def Json.isNull : Json → Bool
  | Json.null => true
  | _ => false

/-- Field lookup in a serialized JSON object body (first occurrence). -/
def findField : List (String × Json) → String → Option Json
  | [], _ => none
  | (k, v) :: rest, key => if k = key then some v else findField rest key

/-- Whether a JSON value is an object carrying the given key. -/
def Json.hasField (j : Json) (key : String) : Bool :=
  match j with
  | Json.obj fields => (findField fields key).isSome
  | _ => false

/-- Serialization of `ErrorInfo` by `encoding/json`: fields `code`,
`message`, then `details` omitted when the interface is nil. -/
def ErrorInfo.toJson (e : ErrorInfo) : Json :=
  Json.obj ([("code", Json.str e.Code), ("message", Json.str e.Message)] ++
    (if e.Details.isNull then [] else [("details", e.Details)]))

/-- Deserialization of `ErrorInfo` from its wire object. -/
def ErrorInfo.fromJson (j : Json) : Option ErrorInfo :=
  match j with
  | Json.obj fields =>
    match findField fields "code", findField fields "message" with
    | some (Json.str c), some (Json.str m) =>
      some { Code := c, Message := m,
             Details := (findField fields "details").getD Json.null }
    | _, _ => none
  | _ => none

/-- Serialization of `Response` by `encoding/json`: declared field order
`code`, `message`, `data` (omitempty), `error` (omitempty), `timestamp`,
`request_id` (omitempty, empty string counts as empty). -/
def Response.toJson (r : Response) : Json :=
  Json.obj ([("code", Json.num r.Code), ("message", Json.str r.Message)] ++
    (if r.Data.isNull then [] else [("data", r.Data)]) ++
    (match r.Error with
     | none => []
     | some e => [("error", e.toJson)]) ++
    [("timestamp", Json.num r.Timestamp)] ++
    (if r.RequestID = "" then [] else [("request_id", Json.str r.RequestID)]))

/-- Deserialization of `Response` from its wire object: absent optional
fields take the Go zero values (nil, nil pointer, empty string). -/
def Response.fromJson (j : Json) : Option Response :=
  match j with
  | Json.obj fields =>
    match findField fields "code", findField fields "message",
          findField fields "timestamp" with
    | some (Json.num c), some (Json.str m), some (Json.num t) =>
      match findField fields "error" with
      | none =>
        some { Code := c, Message := m,
               Data := (findField fields "data").getD Json.null,
               Error := none, Timestamp := t,
               RequestID :=
                 match findField fields "request_id" with
                 | some (Json.str s) => s
                 | _ => "" }
      | some ej =>
        match ErrorInfo.fromJson ej with
        | some e =>
          some { Code := c, Message := m,
                 Data := (findField fields "data").getD Json.null,
                 Error := some e, Timestamp := t,
                 RequestID :=
                   match findField fields "request_id" with
                   | some (Json.str s) => s
                   | _ => "" }
        | none => none
    | _, _, _ => none
  | _ => none

/-- A concrete context whose ambient store maps `request_id` to the
string `"r1"` and whose headers are empty. -/
def ctxAmbient : GinCtx :=
  { keys := fun k => if k = "request_id" then some (GoVal.str "r1") else none
    header := fun _ => "" }

/-- A concrete context with both the ambient `request_id` value `"amb"`
and the inbound header `X-Request-ID: hdr`. -/
def ctxBoth : GinCtx :=
  { keys := fun k => if k = "request_id" then some (GoVal.str "amb") else none
    header := fun k => if k = "X-Request-ID" then "hdr" else "" }

/-- A concrete context storing a non-string value under `request_id`. -/
def ctxNonStr : GinCtx :=
  { keys := fun k => if k = "request_id" then some (GoVal.nonStr 0) else none
    header := fun k => if k = "X-Request-ID" then "hdr" else "" }

/-- The emission produced by a success-family constructor once the
request id has been resolved: status 200, business code 200, no error. -/
def okEmit (msg : String) (d : Json) (now : Int) (rid : String) : Emitted :=
  { status := 200
    body := { Code := 200, Message := msg, Data := d, Error := none,
              Timestamp := now, RequestID := rid } }

/-- The emission produced by an error-family constructor once the request
id has been resolved: given status and business code, envelope message
is the literal string for errors, no data, and the supplied error info. -/
def errEmit (status code : Int) (ec msg : String) (dt : Json) (now : Int)
    (rid : String) : Emitted :=
  { status := status
    body := { Code := code, Message := "error", Data := Json.null,
              Error := some { Code := ec, Message := msg, Details := dt },
              Timestamp := now, RequestID := rid } }

theorem wrap64_eq_self {x : Int} (h0 : -(2 ^ 63) ≤ x) (h1 : x < 2 ^ 63) :
    wrap64 x = x := by
  unfold wrap64
  rw [Int.emod_eq_of_lt (by omega) (by omega)]
  omega

theorem tdiv_eq_fdiv_of_nonneg {a b : Int} (ha : 0 ≤ a) (hb : 0 ≤ b) :
    Int.tdiv a b = Int.fdiv a b := by
  rw [Int.tdiv_eq_ediv ha hb, Int.fdiv_eq_ediv _ hb]

/-- C1 (counterexample): with `total = -15`, `page = 1`, `pageSize = 10`
the code computes `totalPages = 0` (Go division truncates toward zero),
while the exact-arithmetic floor of `(total + pageSize - 1) / pageSize`
is `-1`, so the claim does not hold for every `total`. -/
theorem c1_counterexample :
    (0 : Int) < 10 ∧
    (NewPageResponse Json.null (-15) 1 10).map PageResponse.TotalPages ≠
      some (Int.fdiv ((-15 : Int) + 10 - 1) 10) := by
  refine ⟨by norm_num, ?_⟩
  decide

/-- C1 (amended): for every list, page, `total ≥ 0` and `pageSize > 0`
with `total + pageSize - 1` inside the int64 range, `NewPageResponse`
returns a page whose `totalPages` is the exact-arithmetic
`floor((total + pageSize - 1) / pageSize)`; in particular `totalPages = 0`
for `total = 0, pageSize = 10` and `totalPages = 10` for
`total = 95` or `100` with `pageSize = 10`. -/
theorem c1_totalPages_floor (l : Json) (total page pageSize : Int)
    (htotal : 0 ≤ total) (hps : 0 < pageSize)
    (hrange : total + pageSize - 1 < 2 ^ 63) :
    (NewPageResponse l total page pageSize).map PageResponse.TotalPages =
      some (Int.fdiv (total + pageSize - 1) pageSize) := by
  have hnum0 : 0 ≤ total + pageSize - 1 := by omega
  have hb : 0 ≤ pageSize := le_of_lt hps
  unfold NewPageResponse
  rw [if_neg (by omega)]
  have h1 : wrap64 (total + pageSize - 1) = total + pageSize - 1 :=
    wrap64_eq_self (by omega) hrange
  have h2 : Int.tdiv (total + pageSize - 1) pageSize =
      (total + pageSize - 1) / pageSize := Int.tdiv_eq_ediv hnum0 hb
  have h3 : Int.fdiv (total + pageSize - 1) pageSize =
      (total + pageSize - 1) / pageSize := Int.fdiv_eq_ediv _ hb
  have hq0 : 0 ≤ (total + pageSize - 1) / pageSize := Int.ediv_nonneg hnum0 hb
  have hqle : (total + pageSize - 1) / pageSize ≤ total + pageSize - 1 :=
    Int.ediv_le_self _ hnum0
  simp only [Option.map_some']
  rw [h1, h2, h3, wrap64_eq_self (by omega) (by omega)]

/-- C1 (witness): the amended theorem at `total = 95`, `pageSize = 10`. -/
theorem c1_witness :
    (NewPageResponse Json.null 95 1 10).map PageResponse.TotalPages =
      some (Int.fdiv (95 + 10 - 1) 10) :=
  c1_totalPages_floor Json.null 95 1 10 (by norm_num) (by norm_num)
    (by norm_num)

/-- C2 (counterexample): at `pageSize = 0` the code performs the division
and the divide-by-zero runtime panic aborts the call (modelled by `none`);
no `PageResponse` is produced and no validation-error value exists in the
return type, so the input is not rejected with a validation error. -/
theorem c2_counterexample : NewPageResponse Json.null 5 1 0 = none := rfl

/-- C2 (amended): for every list, total and page, calling
`NewPageResponse` with `pageSize = 0` performs the division and panics
(no result; modelled by `none`) instead of rejecting the input with a
validation error; callers must validate `pageSize > 0` themselves. -/
theorem c2_pageSize_zero_panics (l : Json) (total page : Int) :
    NewPageResponse l total page 0 = none := by
  unfold NewPageResponse
  simp

/-- C3: whenever the request id resolves, each shortcut constructor emits
exactly its hard-coded triple: `BadRequest` and `BadRequestWithDetails`
use transport status 400, business code 400, error code INVALID_PARAM;
`Unauthorized` 401/401/INVALID_TOKEN; `Forbidden`
403/403/INSUFFICIENT_PERMISSION; `NotFound` 404/404/USER_NOT_FOUND;
`InternalError` 500/500/INTERNAL_ERROR; `BusinessError` 400/400 with the
caller-supplied error code. -/
theorem c3_shortcut_triples (c : GinCtx) (msg ec : String) (dt : Json)
    (now : Int) (rid : String) (h : getRequestID c = some rid) :
    BadRequest c msg now =
      some (errEmit 400 400 "INVALID_PARAM" msg Json.null now rid) ∧
    BadRequestWithDetails c msg dt now =
      some (errEmit 400 400 "INVALID_PARAM" msg dt now rid) ∧
    Unauthorized c msg now =
      some (errEmit 401 401 "INVALID_TOKEN" msg Json.null now rid) ∧
    Forbidden c msg now =
      some (errEmit 403 403 "INSUFFICIENT_PERMISSION" msg Json.null now rid) ∧
    NotFound c msg now =
      some (errEmit 404 404 "USER_NOT_FOUND" msg Json.null now rid) ∧
    InternalError c msg now =
      some (errEmit 500 500 "INTERNAL_ERROR" msg Json.null now rid) ∧
    BusinessError c ec msg now =
      some (errEmit 400 400 ec msg Json.null now rid) := by
  simp [BadRequest, BadRequestWithDetails, Unauthorized, Forbidden,
        NotFound, InternalError, BusinessError, Error, ErrorWithDetails,
        errEmit, h]

/-- C3 (witness): the shortcut triples at a concrete context, message,
details, error code and clock. -/
theorem c3_witness :
    getRequestID ctxAmbient = some "r1" ∧
    (BadRequest ctxAmbient "m" 7 =
       some (errEmit 400 400 "INVALID_PARAM" "m" Json.null 7 "r1") ∧
     BadRequestWithDetails ctxAmbient "m" (Json.str "d") 7 =
       some (errEmit 400 400 "INVALID_PARAM" "m" (Json.str "d") 7 "r1") ∧
     Unauthorized ctxAmbient "m" 7 =
       some (errEmit 401 401 "INVALID_TOKEN" "m" Json.null 7 "r1") ∧
     Forbidden ctxAmbient "m" 7 =
       some (errEmit 403 403 "INSUFFICIENT_PERMISSION" "m" Json.null 7 "r1") ∧
     NotFound ctxAmbient "m" 7 =
       some (errEmit 404 404 "USER_NOT_FOUND" "m" Json.null 7 "r1") ∧
     InternalError ctxAmbient "m" 7 =
       some (errEmit 500 500 "INTERNAL_ERROR" "m" Json.null 7 "r1") ∧
     BusinessError ctxAmbient "UPDATE_FAILED" "m" 7 =
       some (errEmit 400 400 "UPDATE_FAILED" "m" Json.null 7 "r1")) :=
  ⟨rfl, c3_shortcut_triples ctxAmbient "m" "UPDATE_FAILED" (Json.str "d")
    7 "r1" rfl⟩

/-- C4: whenever the request id resolves, the success constructors emit
at transport status 200 an envelope with business code 200, no error,
the clock reading as timestamp and the resolved request id; the message
is the literal string for successes in `Success` and the caller-supplied
message in `SuccessWithMessage` and `SuccessWithPage`. -/
theorem c4_success_constructors (c : GinCtx) (msg : String) (d : Json)
    (p : PageResponse) (now : Int) (rid : String)
    (h : getRequestID c = some rid) :
    Success c d now = some (okEmit "success" d now rid) ∧
    SuccessWithMessage c msg d now = some (okEmit msg d now rid) ∧
    SuccessWithPage c msg p now = some (okEmit msg p.toJson now rid) := by
  simp [Success, SuccessWithMessage, SuccessWithPage, okEmit, h]

/-- C4 (witness): the success constructors at a concrete context,
payload, page and clock. -/
theorem c4_witness :
    getRequestID ctxAmbient = some "r1" ∧
    (Success ctxAmbient (Json.str "x") 7 =
       some (okEmit "success" (Json.str "x") 7 "r1") ∧
     SuccessWithMessage ctxAmbient "done" (Json.str "x") 7 =
       some (okEmit "done" (Json.str "x") 7 "r1") ∧
     SuccessWithPage ctxAmbient "done"
         { List := Json.arr [], Total := 0, Page := 1, PageSize := 10,
           TotalPages := 0 } 7 =
       some (okEmit "done"
         (PageResponse.toJson
           { List := Json.arr [], Total := 0, Page := 1, PageSize := 10,
             TotalPages := 0 }) 7 "r1")) :=
  ⟨rfl, c4_success_constructors ctxAmbient "done" (Json.str "x")
    { List := Json.arr [], Total := 0, Page := 1, PageSize := 10,
      TotalPages := 0 } 7 "r1" rfl⟩

/-- C5: whenever the request id resolves, the primitives `Error` and
`ErrorWithDetails` emit at the given transport status an envelope whose
envelope-level message is the literal error string, whose data is absent,
and whose error code and error message equal the supplied values exactly;
`ErrorWithDetails` sets the error details to the supplied value while
`Error` leaves them unset. -/
theorem c5_error_primitives (c : GinCtx) (hs bc : Int) (ec msg : String)
    (dt : Json) (now : Int) (rid : String) (h : getRequestID c = some rid) :
    Error c hs bc ec msg now = some (errEmit hs bc ec msg Json.null now rid) ∧
    ErrorWithDetails c hs bc ec msg dt now =
      some (errEmit hs bc ec msg dt now rid) := by
  simp [Error, ErrorWithDetails, errEmit, h]

/-- C5 (witness): the error primitives at concrete arguments. -/
theorem c5_witness :
    getRequestID ctxAmbient = some "r1" ∧
    (Error ctxAmbient 418 499 "SOME_CODE" "boom" 7 =
       some (errEmit 418 499 "SOME_CODE" "boom" Json.null 7 "r1") ∧
     ErrorWithDetails ctxAmbient 418 499 "SOME_CODE" "boom"
         (Json.str "why") 7 =
       some (errEmit 418 499 "SOME_CODE" "boom" (Json.str "why") 7 "r1")) :=
  ⟨rfl, c5_error_primitives ctxAmbient 418 499 "SOME_CODE" "boom"
    (Json.str "why") 7 "r1" rfl⟩

/-- C6: the request-correlation identifier is the ambient context value
under the request-id key when that key holds a string (the inbound header
is ignored, whatever it is), else the inbound X-Request-ID header value,
which is the empty string when the header is absent. -/
theorem c6_requestId_precedence (c : GinCtx) :
    (∀ s, c.keys "request_id" = some (GoVal.str s) →
      getRequestID c = some s) ∧
    (c.keys "request_id" = none →
      getRequestID c = some (c.header "X-Request-ID")) ∧
    (c.keys "request_id" = none → c.header "X-Request-ID" = "" →
      getRequestID c = some "") := by
  refine ⟨?_, ?_, ?_⟩
  · intro s hs
    unfold getRequestID
    rw [hs]
  · intro h
    unfold getRequestID
    rw [h]
  · intro h hh
    unfold getRequestID
    rw [h, hh]

/-- C6 (witness): in a context where the ambient value is the string
amb and the header is hdr, the ambient value wins. -/
theorem c6_witness :
    ctxBoth.keys "request_id" = some (GoVal.str "amb") ∧
    ctxBoth.header "X-Request-ID" = "hdr" ∧
    getRequestID ctxBoth = some "amb" :=
  ⟨rfl, rfl, (c6_requestId_precedence ctxBoth).1 "amb" rfl⟩

/-- C7 (counterexample): `Success` called with a nil payload emits an
envelope in which the data field is nil and the error field is unset, so
it populates neither of data and error rather than exactly one. -/
theorem c7_counterexample :
    (Success ctxAmbient Json.null 0).map
      (fun em => (em.body.Data.isNull, em.body.Error.isNone)) =
      some (true, true) := rfl

/-- C7 (amended): every envelope emitted by a constructor populates at
most one of data and error, and the error constructors populate exactly
one: the success constructors never set the error field (their data is
the supplied payload, populated exactly when that payload is non-nil,
and always populated for `SuccessWithPage`), while the error constructors
and every shortcut set the error field and leave data unset. -/
theorem c7_data_error_exclusive (c : GinCtx) (d dt : Json)
    (msg ec : String) (p : PageResponse) (hs bc now : Int) :
    (∀ em, Success c d now = some em →
      em.body.Error = none ∧ em.body.Data = d) ∧
    (∀ em, SuccessWithMessage c msg d now = some em →
      em.body.Error = none ∧ em.body.Data = d) ∧
    (∀ em, SuccessWithPage c msg p now = some em →
      em.body.Error = none ∧ em.body.Data = p.toJson ∧
      em.body.Data.isNull = false) ∧
    (∀ em, Error c hs bc ec msg now = some em →
      em.body.Error ≠ none ∧ em.body.Data = Json.null) ∧
    (∀ em, ErrorWithDetails c hs bc ec msg dt now = some em →
      em.body.Error ≠ none ∧ em.body.Data = Json.null) ∧
    (∀ em, BadRequest c msg now = some em →
      em.body.Error ≠ none ∧ em.body.Data = Json.null) ∧
    (∀ em, BadRequestWithDetails c msg dt now = some em →
      em.body.Error ≠ none ∧ em.body.Data = Json.null) ∧
    (∀ em, Unauthorized c msg now = some em →
      em.body.Error ≠ none ∧ em.body.Data = Json.null) ∧
    (∀ em, Forbidden c msg now = some em →
      em.body.Error ≠ none ∧ em.body.Data = Json.null) ∧
    (∀ em, NotFound c msg now = some em →
      em.body.Error ≠ none ∧ em.body.Data = Json.null) ∧
    (∀ em, InternalError c msg now = some em →
      em.body.Error ≠ none ∧ em.body.Data = Json.null) ∧
    (∀ em, BusinessError c ec msg now = some em →
      em.body.Error ≠ none ∧ em.body.Data = Json.null) := by
  cases hrid : getRequestID c with
  | none =>
    refine ⟨?_, ?_, ?_, ?_, ?_, ?_, ?_, ?_, ?_, ?_, ?_, ?_⟩ <;>
      (intro em hem;
       simp [Success, SuccessWithMessage, SuccessWithPage, Error,
             ErrorWithDetails, BadRequest, BadRequestWithDetails,
             Unauthorized, Forbidden, NotFound, InternalError,
             BusinessError, hrid] at hem)
  | some rid =>
    refine ⟨?_, ?_, ?_, ?_, ?_, ?_, ?_, ?_, ?_, ?_, ?_, ?_⟩ <;>
      (intro em hem;
       simp [Success, SuccessWithMessage, SuccessWithPage, Error,
             ErrorWithDetails, BadRequest, BadRequestWithDetails,
             Unauthorized, Forbidden, NotFound, InternalError,
             BusinessError, PageResponse.toJson, hrid] at hem;
       subst hem;
       simp [Json.isNull, PageResponse.toJson])

/-- C7 (witness): the error-primitive conjunct applied at a concrete
emission of `Error`. -/
theorem c7_witness :
    (errEmit 500 500 "E" "m" Json.null 3 "r1").body.Error ≠ none ∧
    (errEmit 500 500 "E" "m" Json.null 3 "r1").body.Data = Json.null :=
  (c7_data_error_exclusive ctxAmbient Json.null Json.null "m" "E"
      { List := Json.null, Total := 0, Page := 1, PageSize := 1,
        TotalPages := 0 } 500 500 3).2.2.2.1
    (errEmit 500 500 "E" "m" Json.null 3 "r1") rfl

theorem Json.isNull_eq_true {j : Json} (h : j.isNull = true) :
    j = Json.null := by
  cases j <;> simp [Json.isNull] at h ⊢

/-- C8: serializing an envelope to the wire object and deserializing
yields the original envelope, and the optional fields data, error,
request id (at the envelope level) and details (inside the error object)
are present in the serialized form exactly when set (request id when it
is not the empty string, data and details when the interface is not nil,
error when the pointer is not nil). -/
theorem c8_roundtrip (r : Response) (e : ErrorInfo) :
    Response.fromJson (Response.toJson r) = some r ∧
    (Response.toJson r).hasField "data" = !r.Data.isNull ∧
    (Response.toJson r).hasField "error" = r.Error.isSome ∧
    (Response.toJson r).hasField "request_id" = !(r.RequestID == "") ∧
    (ErrorInfo.toJson e).hasField "details" = !e.Details.isNull := by
  obtain ⟨rc, rm, rd, re, rt, rr⟩ := r
  obtain ⟨ecx, emx, edx⟩ := e
  refine ⟨?_, ?_, ?_, ?_, ?_⟩
  · rcases re with _ | ⟨ecy, emy, edy⟩
    · cases rd <;> by_cases hr : rr = "" <;>
        simp [Response.toJson, Response.fromJson, Json.isNull, findField,
              hr]
    · cases rd <;> cases edy <;> by_cases hr : rr = "" <;>
        simp [Response.toJson, Response.fromJson, ErrorInfo.toJson,
              ErrorInfo.fromJson, Json.isNull, findField, hr]
  · rcases re with _ | ⟨ecy, emy, edy⟩ <;>
      cases rd <;> by_cases hr : rr = "" <;>
      simp [Response.toJson, Json.hasField, Json.isNull, findField, hr]
  · rcases re with _ | ⟨ecy, emy, edy⟩ <;>
      cases rd <;> by_cases hr : rr = "" <;>
      simp [Response.toJson, Json.hasField, Json.isNull, findField, hr]
  · cases rd <;> by_cases hr : rr = "" <;>
      rcases re with _ | ⟨ecy, emy, edy⟩ <;>
      simp [Response.toJson, Json.hasField, Json.isNull, findField, hr]
  · cases edx <;>
      simp [ErrorInfo.toJson, Json.hasField, Json.isNull, findField]

/-- C9: if the ambient context holds a non-string value under the
request-id key, `getRequestID` panics on the unchecked type assertion
(modelled by `none`) instead of falling back to the header or returning
an error, and therefore every constructor panics and emits nothing; the
lookup is total exactly under the precondition that any value stored
under the key is a string. -/
theorem c9_nonstring_panics (c : GinCtx) (d dt : Json) (msg ec : String)
    (p : PageResponse) (hs bc now : Int) :
    (∀ t, c.keys "request_id" = some (GoVal.nonStr t) →
      getRequestID c = none ∧
      Success c d now = none ∧
      SuccessWithMessage c msg d now = none ∧
      SuccessWithPage c msg p now = none ∧
      Error c hs bc ec msg now = none ∧
      ErrorWithDetails c hs bc ec msg dt now = none ∧
      BadRequest c msg now = none ∧
      BadRequestWithDetails c msg dt now = none ∧
      Unauthorized c msg now = none ∧
      Forbidden c msg now = none ∧
      NotFound c msg now = none ∧
      InternalError c msg now = none ∧
      BusinessError c ec msg now = none) ∧
    ((∀ v, c.keys "request_id" = some v → ∃ s, v = GoVal.str s) →
      ∃ s, getRequestID c = some s) := by
  constructor
  · intro t ht
    have hid : getRequestID c = none := by
      unfold getRequestID
      rw [ht]
    exact ⟨hid, by
      simp [Success, SuccessWithMessage, SuccessWithPage, Error,
            ErrorWithDetails, BadRequest, BadRequestWithDetails,
            Unauthorized, Forbidden, NotFound, InternalError,
            BusinessError, hid]⟩
  · intro hv
    unfold getRequestID
    cases hk : c.keys "request_id" with
    | none => exact ⟨c.header "X-Request-ID", rfl⟩
    | some v =>
      obtain ⟨s, rfl⟩ := hv v hk
      exact ⟨s, rfl⟩

/-- C9 (witness): in a context storing a non-string value under the
request-id key, `getRequestID` and `Success` produce nothing. -/
theorem c9_witness :
    getRequestID ctxNonStr = none ∧ Success ctxNonStr Json.null 0 = none :=
  ⟨((c9_nonstring_panics ctxNonStr Json.null Json.null "m" "E"
      { List := Json.null, Total := 0, Page := 1, PageSize := 1,
        TotalPages := 0 } 400 400 0).1 0 rfl).1,
   ((c9_nonstring_panics ctxNonStr Json.null Json.null "m" "E"
      { List := Json.null, Total := 0, Page := 1, PageSize := 1,
        TotalPages := 0 } 400 400 0).1 0 rfl).2.1⟩

/-- C10: every constructor is deterministic in its arguments and the
ambient state: two contexts with the same ambient store and the same
headers, the same arguments and the same clock reading produce identical
emissions (status and envelope). -/
theorem c10_deterministic (c c' : GinCtx) (hk : c.keys = c'.keys)
    (hh : c.header = c'.header) (d dt : Json) (msg ec : String)
    (p : PageResponse) (hs bc now : Int) :
    Success c d now = Success c' d now ∧
    SuccessWithMessage c msg d now = SuccessWithMessage c' msg d now ∧
    SuccessWithPage c msg p now = SuccessWithPage c' msg p now ∧
    Error c hs bc ec msg now = Error c' hs bc ec msg now ∧
    ErrorWithDetails c hs bc ec msg dt now =
      ErrorWithDetails c' hs bc ec msg dt now ∧
    BadRequest c msg now = BadRequest c' msg now ∧
    BadRequestWithDetails c msg dt now = BadRequestWithDetails c' msg dt now ∧
    Unauthorized c msg now = Unauthorized c' msg now ∧
    Forbidden c msg now = Forbidden c' msg now ∧
    NotFound c msg now = NotFound c' msg now ∧
    InternalError c msg now = InternalError c' msg now ∧
    BusinessError c ec msg now = BusinessError c' ec msg now := by
  cases c
  cases c'
  cases hk
  cases hh
  exact ⟨rfl, rfl, rfl, rfl, rfl, rfl, rfl, rfl, rfl, rfl, rfl, rfl⟩

/-- C10 (witness): determinism applied to two structurally equal concrete
contexts. -/
theorem c10_witness :
    Success ctxBoth (Json.str "x") 7 =
      Success { keys := ctxBoth.keys, header := ctxBoth.header }
        (Json.str "x") 7 :=
  (c10_deterministic ctxBoth
    { keys := ctxBoth.keys, header := ctxBoth.header } rfl rfl
    (Json.str "x") Json.null "m" "E"
    { List := Json.null, Total := 0, Page := 1, PageSize := 1,
      TotalPages := 0 } 400 400 7).1
